import Mathlib

/-!
Shallow embedding of the distribution-to-artifact resolution engine of
`uv-distribution` (`src/crates/uv-distribution/src/distribution_database.rs`
and `src/crates/uv-distribution/src/error.rs`).

External collaborators (registry client, on-disk cache, archive extractor,
filesystem, build backend) are modelled as oracles collected in an `Env`
record; every resolution function is a pure function of the `Env` that
returns its `Except`-style result together with a trace of the collaborator
effects it performed, in order.
-/

namespace Uv

/-- Filesystem paths, modelled as plain strings. -/
abbrev Path := String

/-- URLs, modelled as plain strings (parsing is a collaborator concern). -/
abbrev Url := String

/-- Platform compatibility tags (`platform_tags::Tags`), opaque here. -/
abbrev Tags := String

/-- `uv_normalize::PackageName` (collaborator crate): a normalized name. -/
structure PackageName where
  name : String
deriving DecidableEq, Repr

/-- `distribution_filename::WheelFilename` (collaborator crate): only the
package name and the stem (`filename.stem()`) are consumed by this core. -/
structure WheelFilename where
  name : PackageName
  stem : String
deriving DecidableEq, Repr

/-- `uv_types::NoBinary`: the binary-disable policy
(match arms used at `distribution_database.rs:129-133`). -/
inductive NoBinary
  | none
  | all
  | packages (packages : List PackageName)
deriving DecidableEq, Repr

/-- `uv_types::NoBuild`: the build-disable policy
(match arms used at `distribution_database.rs:357-363`). -/
inductive NoBuild
  | all
  | none
  | packages (packages : List PackageName)
deriving DecidableEq, Repr

/-- `uv_client::Connectivity`. -/
inductive Connectivity
  | online
  | offline
deriving DecidableEq, Repr

/-- `distribution_types::FileLocation`: where a registry file lives
(match arms used at `distribution_database.rs:140-183`). -/
inductive FileLocation
  | relativeUrl (base : String) (url : String)
  | absoluteUrl (url : String)
  | path (path : Path)
deriving DecidableEq, Repr

/-- The slice of `distribution_types::File` consumed here: its location. -/
structure File where
  url : FileLocation
deriving DecidableEq, Repr

/-- A registry-hosted built distribution (`BuiltDist::Registry` payload):
the fields read by `get_wheel` are `file.url`, `filename`, `index`, `name()`. -/
structure RegistryBuiltDist where
  filename : WheelFilename
  file : File
  index : String
deriving DecidableEq, Repr

/-- The package name of a registry wheel (the `Name` impl reads the filename). -/
def RegistryBuiltDist.name (w : RegistryBuiltDist) : PackageName :=
  w.filename.name

/-- A direct-URL built distribution (`BuiltDist::DirectUrl` payload). -/
structure DirectUrlBuiltDist where
  filename : WheelFilename
  url : Url
deriving DecidableEq, Repr

def DirectUrlBuiltDist.name (w : DirectUrlBuiltDist) : PackageName :=
  w.filename.name

/-- A local-path built distribution (`BuiltDist::Path` payload). -/
structure PathBuiltDist where
  filename : WheelFilename
  url : Url
  path : Path
deriving DecidableEq, Repr

def PathBuiltDist.name (w : PathBuiltDist) : PackageName :=
  w.filename.name

/-- `distribution_types::BuiltDist`. -/
inductive BuiltDist
  | registry (wheel : RegistryBuiltDist)
  | directUrl (wheel : DirectUrlBuiltDist)
  | path (wheel : PathBuiltDist)
deriving DecidableEq, Repr

/-- `dist.name()` for a built distribution. -/
def BuiltDist.name : BuiltDist → PackageName
  | .registry w => w.name
  | .directUrl w => w.name
  | .path w => w.name

/-- `distribution_types::SourceDist`, reduced to the fields this core
consumes: the package name (for policy checks) and its resolved location
(the lock identity). The registry/url/path/git variants are irrelevant to
the resolution engine itself, which treats the builder as a collaborator. -/
structure SourceDist where
  name : PackageName
  location : String
deriving DecidableEq, Repr

/-- `distribution_types::Dist`. -/
inductive Dist
  | built (dist : BuiltDist)
  | source (dist : SourceDist)
deriving DecidableEq, Repr

/-- `distribution_types::BuildableSource`: either a source distribution or a
bare URL (the latter carries no package name, hence `name()` is optional). -/
inductive BuildableSource
  | dist (dist : SourceDist)
  | url (url : Url)
deriving DecidableEq, Repr

/-- `source.name()` for a buildable source. -/
def BuildableSource.name : BuildableSource → Option PackageName
  | .dist d => some d.name
  | .url _ => Option.none

/-- `uv_cache::CacheBucket` (only `Wheels` is used here). -/
inductive CacheBucket
  | wheels
deriving DecidableEq, Repr

/-- Modelled from the spec: a cache entry is a `(bucket, subdirectory, key)`
triple identifying a location in the on-disk cache (§3 "Cache Entry";
collaborator `uv_cache::CacheEntry` is not under `src/`). -/
structure CacheEntry where
  bucket : CacheBucket
  dir : String
  file : String
deriving DecidableEq, Repr

/-- `CacheEntry::with_file`: a sibling entry with a different file name. -/
def CacheEntry.with_file (e : CacheEntry) (f : String) : CacheEntry :=
  { e with file := f }

/-- Modelled from the spec: the cache collaborator's `entry(bucket, subdir,
key)` is a deterministic mapping to a path that does not touch disk (§6).
We render the triple as a path string. -/
def CacheEntry.path (e : CacheEntry) : Path :=
  (match e.bucket with
   | .wheels => "wheels") ++ "/" ++ e.dir ++ "/" ++ e.file

/-- `CacheEntry::into_path_buf`. -/
def CacheEntry.into_path_buf (e : CacheEntry) : Path :=
  e.path

/-- Modelled from the spec: `uv_cache::WheelCache` shards the wheel bucket by
index-or-URL plus package name (`wheel_dir`); collaborator code not under
`src/`. -/
inductive WheelCacheShard
  | url (url : Url)
  | index (index : String)
deriving DecidableEq, Repr

/-- `WheelCache::…::wheel_dir(package_name)`: the cache subdirectory. -/
def WheelCacheShard.wheel_dir : WheelCacheShard → String → String
  | .url u, name => "url/" ++ u ++ "/" ++ name
  | .index i, name => "index/" ++ i ++ "/" ++ name

/-- `Cache::entry(bucket, dir, file)`. -/
def cacheEntry (bucket : CacheBucket) (dir : String) (file : String) : CacheEntry :=
  { bucket := bucket, dir := dir, file := file }

/-- `std::io::ErrorKind`, reduced to the kinds this core distinguishes. -/
inductive IoErrorKind
  | notFound
  | timedOut
  | permissionDenied
  | other
deriving DecidableEq, Repr

/-- `std::io::Error`: a kind plus an opaque message. -/
structure IoError where
  kind : IoErrorKind
  msg : String
deriving DecidableEq, Repr

/-- `uv_client::Error`, reduced to the one predicate this core consults
(`is_http_streaming_unsupported`, `distribution_database.rs:203,241,340`)
plus an opaque payload. -/
structure ClientError where
  streamingUnsupported : Bool
  msg : String
deriving DecidableEq, Repr

/-- `uv_extract::Error`, reduced likewise
(`is_http_streaming_unsupported`, `distribution_database.rs:203`). -/
structure ExtractError where
  streamingUnsupported : Bool
  msg : String
deriving DecidableEq, Repr

/-- `pypi_types::Metadata23`, opaque. -/
structure Metadata23 where
  raw : String
deriving DecidableEq, Repr

/-- `crate::Error` (`src/crates/uv-distribution/src/error.rs`), with
collaborator payloads reduced to opaque strings. -/
inductive Error
  | noBuild
  | noBinary
  | url (url : String) (err : String)
  | joinRelativeUrl (err : String)
  | git (err : String)
  | reqwest (err : String)
  | client (err : ClientError)
  | cacheRead (err : IoError)
  | cacheWrite (err : IoError)
  | cacheDecode (err : String)
  | cacheEncode (err : String)
  | build (dist : String) (err : String)
  | buildEditable (dist : String) (err : String)
  | wheelFilename (err : String)
  | nameMismatch (given : PackageName) (fromMetadata : PackageName)
  | metadata (err : String)
  | distInfo (err : String)
  | zip (err : String)
  | dirWithoutEntrypoint
  | extract (err : ExtractError)
  | notFound (path : Path)
  | missingPkgInfo
  | dynamicPkgInfo (err : String)
  | missingPyprojectToml
  | dynamicPyprojectToml (err : String)
  | unsupportedScheme (scheme : String)
  | reqwestMiddlewareError (err : String)
  | join (err : String)
deriving DecidableEq, Repr

/-- Errors `LocalWheel::metadata()` can produce when reading `dist-info`
metadata out of a local wheel (collaborator `download.rs`, not under `src/`;
modelled from the spec's FormatError kinds, §7). -/
inductive WheelReadError
  | distInfo (err : String)
  | zip (err : String)
  | metadataParse (err : String)
deriving DecidableEq, Repr

/-- How a `WheelReadError` surfaces as a `crate::Error` (the `#[from]`
conversions in `error.rs`). -/
def WheelReadError.toError : WheelReadError → Error
  | .distInfo e => .distInfo e
  | .zip e => .zip e
  | .metadataParse e => .metadata e

/-- `uv_cache::Freshness`: the cache collaborator's freshness determination
for an HTTP cache entry. -/
inductive Freshness
  | fresh
  | stale
  | missing
deriving DecidableEq, Repr

/-- `uv_client::CacheControl`. Modelled from the spec: `AllowStale` accepts
a stale cached response; the `Online` decision is whatever the collaborator
derives from the freshness determination (`CacheControl::from`), kept
symbolic here as `ofFreshness`. -/
inductive CacheControl
  | allowStale
  | ofFreshness (f : Freshness)
deriving DecidableEq, Repr

/-- A `reqwest::Request` as built by `DistributionDatabase::request`
(`distribution_database.rs:509-522`). -/
structure Request where
  method : String
  url : Url
  headers : List (String × String)
deriving DecidableEq, Repr

/-- `request(url)`: a GET request for the URL with the identity
accept-encoding header (`distribution_database.rs:510-522`; the reqwest
builder is infallible for these inputs, so the `Result` wrapper is dropped). -/
def request (url : Url) : Request :=
  { method := "GET", url := url, headers := [("accept-encoding", "identity")] }

/-- A `reqwest::Response`, opaque body handle. -/
structure Response where
  body : String
deriving DecidableEq, Repr

/-- The lock registry key: `locks.acquire(&Dist::Source(dist.clone()))` in
`build_wheel`, `locks.acquire(source)` in `build_wheel_metadata`. -/
inductive LockKey
  | dist (d : Dist)
  | buildable (s : BuildableSource)
deriving DecidableEq, Repr

/-- The descriptor the build collaborator returns from
`download_and_build` (path, cache destination, filename). -/
structure SourceBuiltWheel where
  path : Path
  target : Path
  filename : WheelFilename
deriving DecidableEq, Repr

/-- `UnzippedWheel` (`crate::download`): an unpacked artifact directory. -/
structure UnzippedWheel where
  dist : Dist
  archive : Path
  filename : WheelFilename
deriving DecidableEq, Repr

/-- `DiskWheel` (`crate::download`): a raw wheel file plus its unpack target. -/
structure DiskWheel where
  dist : Dist
  path : Path
  target : Path
  filename : WheelFilename
deriving DecidableEq, Repr

/-- `BuiltWheel` (`crate::download`): a just-built wheel plus its target. -/
structure BuiltWheel where
  dist : Dist
  filename : WheelFilename
  path : Path
  target : Path
deriving DecidableEq, Repr

/-- `crate::LocalWheel`: the artifact handle produced by resolution. -/
inductive LocalWheel
  | unzipped (wheel : UnzippedWheel)
  | disk (wheel : DiskWheel)
  | built (wheel : BuiltWheel)
deriving DecidableEq, Repr

/-- Outcome of `cached_client().get_serde(req, entry, cache_control, download)`
as observed by this core: a cached hit (no download callback run), a miss
handing the response to the download callback, or a transport failure
(`CachedClientError::Client`). `CachedClientError::Callback` is unwrapped to
the callback's own error at the call sites, so it is represented by running
the callback directly. -/
inductive GetSerdeOutcome
  | cacheHit (archive : Path)
  | miss (response : Response)
  | clientError (err : ClientError)
deriving DecidableEq, Repr

/-- One observable collaborator interaction. Traces let the theorems state
"before any network request" / "no unpack work" claims. -/
inductive Effect
  | canonicalize (path : Path)
  | upToDate (source : Path) (cached : Path)
  | freshnessCheck (entry : CacheEntry) (name : PackageName)
  | getSerde (req : Request) (entry : CacheEntry) (control : CacheControl)
  | streamStrategy (url : Url)
  | downloadStrategy (url : Url)
  | unzipStream (dest : Path)
  | copyToFile (dest : Path)
  | unzipSeek (source : Path) (dest : Path)
  | persist (source : Path) (dest : Path)
  | acquireLock (key : LockKey)
  | build (dist : SourceDist)
  | buildMetadata (source : BuildableSource)
  | fetchMetadata (dist : BuiltDist)
deriving DecidableEq, Repr

/-- The collaborator oracles (spec §6) plus the configured policies. -/
structure Env where
  noBinary : NoBinary
  noBuild : NoBuild
  connectivity : Connectivity
  /-- `pypi_types::base_url_join_relative`. -/
  baseUrlJoinRelative : String → String → Except String Url
  /-- `Url::parse`. -/
  parseUrl : String → Except String Url
  /-- `Url::from_file_path` (the `expect` on relative paths is out of scope:
  registry file paths are absolute by construction). -/
  fromFilePath : Path → Url
  /-- `std::path::Path::canonicalize` of a cache destination. -/
  canonicalize : Path → Except IoError Path
  /-- `ArchiveTimestamp::up_to_date_with(source, ArchiveTarget::Cache(dest))`. -/
  upToDate : Path → Path → Except IoError Bool
  /-- `Cache::freshness(http_entry, Some(package_name))`. -/
  freshness : CacheEntry → PackageName → Except IoError Freshness
  /-- `CachedClient::get_serde`. -/
  getSerde : Request → CacheEntry → CacheControl → GetSerdeOutcome
  /-- `tempfile::tempdir_in(cache.root())`. -/
  mkTempDir : Except IoError Path
  /-- `tempfile::tempfile_in(cache.root())`. -/
  mkTempFile : Except IoError Path
  /-- `uv_extract::stream::unzip(reader, temp_dir)`. -/
  unzipStream : Response → Path → Except ExtractError Unit
  /-- `tokio::io::copy(reader, writer)` into the temp file. -/
  copyToFile : Response → Path → Except IoError Unit
  /-- `file.seek(SeekFrom::Start(0))`. -/
  seekStart : Path → Except IoError Unit
  /-- `uv_extract::seek::unzip(file, temp_dir)`. -/
  unzipSeek : Path → Path → Except ExtractError Unit
  /-- `Cache::persist(temp_dir, final_path)`: atomic publish, returns the
  final archive path. -/
  persist : Path → Path → Except IoError Path
  /-- `RegistryClient::wheel_metadata(dist)`: the cheap metadata-only fetch. -/
  wheelMetadata : BuiltDist → Except ClientError Metadata23
  /-- `LocalWheel::metadata()`: read metadata out of a local wheel. -/
  wheelLocalMetadata : LocalWheel → Except WheelReadError Metadata23
  /-- Build collaborator: `download_and_build(BuildableSource::Dist(dist), tags)`. -/
  downloadAndBuild : SourceDist → Tags → Except Error SourceBuiltWheel
  /-- Build collaborator: `download_and_build_metadata(source)`. -/
  downloadAndBuildMetadata : BuildableSource → Except Error Metadata23

deriving instance DecidableEq for Except

/-- The value of a resolution function: its `Result` plus the ordered trace
of collaborator effects it performed. -/
structure Res (α : Type) where
  result : Except Error α
  trace : List Effect
deriving DecidableEq, Repr

/-- The `no_binary` gate of `get_wheel` (`distribution_database.rs:129-133`). -/
def noBinaryGate (policy : NoBinary) (name : PackageName) : Bool :=
  match policy with
  | .none => false
  | .all => true
  | .packages packages => packages.contains name

/-- The `no_build` gate of `build_wheel_metadata`
(`distribution_database.rs:357-363`). -/
def noBuildGate (policy : NoBuild) (source : BuildableSource) : Bool :=
  match policy with
  | .all => true
  | .none => false
  | .packages packages =>
      match source.name with
      | some n => packages.contains n
      | Option.none => false

/-! ### The fetch/unpack pipeline (`stream_wheel` / `download_wheel`) -/

/-- The HTTP cache entry derived by `stream_wheel`
(`distribution_database.rs:390`): the wheel entry with a file named from the
filename stem plus `.http`. -/
def stream_http_entry (wheel_entry : CacheEntry) (filename : WheelFilename) : CacheEntry :=
  wheel_entry.with_file (filename.stem ++ ".http")

/-- The HTTP cache entry derived by `download_wheel`
(`distribution_database.rs:448`). -/
def download_http_entry (wheel_entry : CacheEntry) (filename : WheelFilename) : CacheEntry :=
  wheel_entry.with_file (filename.stem ++ ".http")

/-- The cache-control decision of `stream_wheel`
(`distribution_database.rs:416-424`): `Online` derives it from the cache
collaborator's freshness check (a failing check is `Error::CacheRead`);
`Offline` is unconditionally `AllowStale`. -/
def stream_cache_control (env : Env) (http_entry : CacheEntry)
    (filename : WheelFilename) : Res CacheControl :=
  match env.connectivity with
  | .online =>
      match env.freshness http_entry filename.name with
      | .ok f =>
          { result := .ok (.ofFreshness f),
            trace := [Effect.freshnessCheck http_entry filename.name] }
      | .error e =>
          { result := .error (.cacheRead e),
            trace := [Effect.freshnessCheck http_entry filename.name] }
  | .offline => { result := .ok .allowStale, trace := [] }

/-- The cache-control decision of `download_wheel`
(`distribution_database.rs:486-494`). -/
def download_cache_control (env : Env) (http_entry : CacheEntry)
    (filename : WheelFilename) : Res CacheControl :=
  match env.connectivity with
  | .online =>
      match env.freshness http_entry filename.name with
      | .ok f =>
          { result := .ok (.ofFreshness f),
            trace := [Effect.freshnessCheck http_entry filename.name] }
      | .error e =>
          { result := .error (.cacheRead e),
            trace := [Effect.freshnessCheck http_entry filename.name] }
  | .offline => { result := .ok .allowStale, trace := [] }

/-- Final cache path `stream_wheel`'s download closure persists into
(`distribution_database.rs:404-410`: `wheel_entry.path()`). -/
def stream_persist_target (wheel_entry : CacheEntry) : Path :=
  wheel_entry.path

/-- Final cache path `download_wheel`'s download closure persists into
(`distribution_database.rs:474-480`). -/
def download_persist_target (wheel_entry : CacheEntry) : Path :=
  wheel_entry.path

/-- The download closure of `stream_wheel` (`distribution_database.rs:392-414`):
unzip the response stream into a fresh temp dir, then atomically persist it
into the wheel entry. Temp-dir creation failure is `CacheWrite`, unzip failure
is `Error::Extract` (via `?`), persist failure is `CacheRead`. -/
def stream_download (env : Env) (response : Response)
    (wheel_entry : CacheEntry) : Res Path :=
  match env.mkTempDir with
  | .error e => { result := .error (.cacheWrite e), trace := [] }
  | .ok temp_dir =>
      match env.unzipStream response temp_dir with
      | .error e =>
          { result := .error (.extract e), trace := [Effect.unzipStream temp_dir] }
      | .ok _ =>
          match env.persist temp_dir (stream_persist_target wheel_entry) with
          | .ok archive =>
              { result := .ok archive,
                trace := [Effect.unzipStream temp_dir,
                          Effect.persist temp_dir (stream_persist_target wheel_entry)] }
          | .error e =>
              { result := .error (.cacheRead e),
                trace := [Effect.unzipStream temp_dir,
                          Effect.persist temp_dir (stream_persist_target wheel_entry)] }

/-- The download closure of `download_wheel`
(`distribution_database.rs:450-484`): buffer the response into a temp file
(`CacheWrite` on failure), rewind it (`CacheWrite`), unzip it with the
seek-capable extractor into a fresh temp dir (`Error::Extract`), then persist
(`CacheRead`). -/
def download_download (env : Env) (response : Response)
    (wheel_entry : CacheEntry) : Res Path :=
  match env.mkTempFile with
  | .error e => { result := .error (.cacheWrite e), trace := [] }
  | .ok temp_file =>
      match env.copyToFile response temp_file with
      | .error e =>
          { result := .error (.cacheWrite e), trace := [Effect.copyToFile temp_file] }
      | .ok _ =>
          match env.mkTempDir with
          | .error e =>
              { result := .error (.cacheWrite e), trace := [Effect.copyToFile temp_file] }
          | .ok temp_dir =>
              match env.seekStart temp_file with
              | .error e =>
                  { result := .error (.cacheWrite e),
                    trace := [Effect.copyToFile temp_file] }
              | .ok _ =>
                  match env.unzipSeek temp_file temp_dir with
                  | .error e =>
                      { result := .error (.extract e),
                        trace := [Effect.copyToFile temp_file,
                                  Effect.unzipSeek temp_file temp_dir] }
                  | .ok _ =>
                      match env.persist temp_dir (download_persist_target wheel_entry) with
                      | .ok archive =>
                          { result := .ok archive,
                            trace := [Effect.copyToFile temp_file,
                                      Effect.unzipSeek temp_file temp_dir,
                                      Effect.persist temp_dir (download_persist_target wheel_entry)] }
                      | .error e =>
                          { result := .error (.cacheRead e),
                            trace := [Effect.copyToFile temp_file,
                                      Effect.unzipSeek temp_file temp_dir,
                                      Effect.persist temp_dir (download_persist_target wheel_entry)] }

/-- `stream_wheel` (`distribution_database.rs:382-437`): derive the HTTP
entry, select the cache control, issue the cached GET; a cache hit returns
the cached archive path, a miss runs the streaming download closure, a
transport failure is `Error::Client` (`CachedClientError::Client`), a
callback failure propagates as itself (`CachedClientError::Callback`). -/
def stream_wheel (env : Env) (url : Url) (filename : WheelFilename)
    (wheel_entry : CacheEntry) : Res Path :=
  let http_entry := stream_http_entry wheel_entry filename
  let cc := stream_cache_control env http_entry filename
  match cc.result with
  | .error e => { result := .error e, trace := Effect.streamStrategy url :: cc.trace }
  | .ok cache_control =>
      let req := request url
      match env.getSerde req http_entry cache_control with
      | .cacheHit archive =>
          { result := .ok archive,
            trace := Effect.streamStrategy url ::
              (cc.trace ++ [Effect.getSerde req http_entry cache_control]) }
      | .clientError e =>
          { result := .error (.client e),
            trace := Effect.streamStrategy url ::
              (cc.trace ++ [Effect.getSerde req http_entry cache_control]) }
      | .miss response =>
          let d := stream_download env response wheel_entry
          { result := d.result,
            trace := Effect.streamStrategy url ::
              (cc.trace ++ [Effect.getSerde req http_entry cache_control] ++ d.trace) }

/-- `download_wheel` (`distribution_database.rs:440-507`): identical request
and caching shape as `stream_wheel`, but the miss path runs the buffered
download closure. -/
def download_wheel (env : Env) (url : Url) (filename : WheelFilename)
    (wheel_entry : CacheEntry) : Res Path :=
  let http_entry := download_http_entry wheel_entry filename
  let cc := download_cache_control env http_entry filename
  match cc.result with
  | .error e => { result := .error e, trace := Effect.downloadStrategy url :: cc.trace }
  | .ok cache_control =>
      let req := request url
      match env.getSerde req http_entry cache_control with
      | .cacheHit archive =>
          { result := .ok archive,
            trace := Effect.downloadStrategy url ::
              (cc.trace ++ [Effect.getSerde req http_entry cache_control]) }
      | .clientError e =>
          { result := .error (.client e),
            trace := Effect.downloadStrategy url ::
              (cc.trace ++ [Effect.getSerde req http_entry cache_control]) }
      | .miss response =>
          let d := download_download env response wheel_entry
          { result := d.result,
            trace := Effect.downloadStrategy url ::
              (cc.trace ++ [Effect.getSerde req http_entry cache_control] ++ d.trace) }

/-! ### `get_wheel`: the built-artifact path -/

/-- The registry wheel cache entry (`distribution_database.rs:186-191`). -/
def registry_wheel_entry (wheel : RegistryBuiltDist) : CacheEntry :=
  cacheEntry .wheels ((WheelCacheShard.index wheel.index).wheel_dir wheel.name.name)
    wheel.filename.stem

/-- The direct-URL wheel cache entry (`distribution_database.rs:224-229`). -/
def direct_url_wheel_entry (wheel : DirectUrlBuiltDist) : CacheEntry :=
  cacheEntry .wheels ((WheelCacheShard.url wheel.url).wheel_dir wheel.name.name)
    wheel.filename.stem

/-- The `BuiltDist::Registry` download-and-unzip arm of `get_wheel`
(`distribution_database.rs:193-220`): try `stream_wheel`; fall back to
`download_wheel` only on `Error::Extract(err)` with
`err.is_http_streaming_unsupported()`; propagate every other error. -/
def registry_download_flow (env : Env) (dist : BuiltDist)
    (wheel : RegistryBuiltDist) (url : Url) : Res LocalWheel :=
  let wheel_entry := registry_wheel_entry wheel
  let s := stream_wheel env url wheel.filename wheel_entry
  match s.result with
  | .ok archive =>
      { result := .ok (.unzipped
          { dist := .built dist, archive := archive, filename := wheel.filename }),
        trace := s.trace }
  | .error (.extract err) =>
      if err.streamingUnsupported then
        let d := download_wheel env url wheel.filename wheel_entry
        match d.result with
        | .ok archive =>
            { result := .ok (.unzipped
                { dist := .built dist, archive := archive, filename := wheel.filename }),
              trace := s.trace ++ d.trace }
        | .error e => { result := .error e, trace := s.trace ++ d.trace }
      else { result := .error (.extract err), trace := s.trace }
  | .error err => { result := .error err, trace := s.trace }

/-- The `BuiltDist::DirectUrl` download-and-unzip arm of `get_wheel`
(`distribution_database.rs:231-263`): try `stream_wheel`; fall back to
`download_wheel` only on `Error::Client(err)` with
`err.is_http_streaming_unsupported()`; propagate every other error. -/
def direct_url_download_flow (env : Env) (dist : BuiltDist)
    (wheel : DirectUrlBuiltDist) : Res LocalWheel :=
  let wheel_entry := direct_url_wheel_entry wheel
  let s := stream_wheel env wheel.url wheel.filename wheel_entry
  match s.result with
  | .ok archive =>
      { result := .ok (.unzipped
          { dist := .built dist, archive := archive, filename := wheel.filename }),
        trace := s.trace }
  | .error (.client err) =>
      if err.streamingUnsupported then
        let d := download_wheel env wheel.url wheel.filename wheel_entry
        match d.result with
        | .ok archive =>
            { result := .ok (.unzipped
                { dist := .built dist, archive := archive, filename := wheel.filename }),
              trace := s.trace ++ d.trace }
        | .error e => { result := .error e, trace := s.trace ++ d.trace }
      else { result := .error (.client err), trace := s.trace }
  | .error err => { result := .error err, trace := s.trace }

/-- The cache entry of the `FileLocation::Path` arm
(`distribution_database.rs:149-153`). -/
def registry_path_cache_entry (wheel : RegistryBuiltDist) (url : Url) : CacheEntry :=
  cacheEntry .wheels ((WheelCacheShard.url url).wheel_dir wheel.name.name)
    wheel.filename.stem

/-- The cache entry of the `BuiltDist::Path` arm
(`distribution_database.rs:267-271`). -/
def path_wheel_cache_entry (wheel : PathBuiltDist) : CacheEntry :=
  cacheEntry .wheels ((WheelCacheShard.url wheel.url).wheel_dir wheel.name.name)
    wheel.filename.stem

/-- `get_wheel` (`distribution_database.rs:128-302`): enforce the `NoBinary`
policy first, then branch on the distribution's location. Local-path
locations check the canonical cache destination's freshness and return
`Unzipped` or `Disk`; remote locations run the fetch pipeline with the
streaming-to-buffered capability fallback. -/
def get_wheel (env : Env) (dist : BuiltDist) : Res LocalWheel :=
  if noBinaryGate env.noBinary dist.name then
    { result := .error .noBinary, trace := [] }
  else
    match dist with
    | .registry wheel =>
        (match wheel.file.url with
         | .relativeUrl base u =>
             (match env.baseUrlJoinRelative base u with
              | .error e => { result := .error (.joinRelativeUrl e), trace := [] }
              | .ok url => registry_download_flow env dist wheel url)
         | .absoluteUrl u =>
             (match env.parseUrl u with
              | .error e => { result := .error (.url u e), trace := [] }
              | .ok url => registry_download_flow env dist wheel url)
         | .path p =>
             let url := env.fromFilePath p
             let cache_entry := registry_path_cache_entry wheel url
             (match env.canonicalize cache_entry.path with
              | .ok archive =>
                  (match env.upToDate p archive with
                   | .ok true =>
                       { result := .ok (.unzipped
                           { dist := .built dist, archive := archive,
                             filename := wheel.filename }),
                         trace := [Effect.canonicalize cache_entry.path,
                                   Effect.upToDate p archive] }
                   | .ok false =>
                       { result := .ok (.disk
                           { dist := .built dist, path := p,
                             target := cache_entry.into_path_buf,
                             filename := wheel.filename }),
                         trace := [Effect.canonicalize cache_entry.path,
                                   Effect.upToDate p archive] }
                   | .error e =>
                       { result := .error (.cacheRead e),
                         trace := [Effect.canonicalize cache_entry.path,
                                   Effect.upToDate p archive] })
              | .error e =>
                  if e.kind = .notFound then
                    { result := .ok (.disk
                        { dist := .built dist, path := p,
                          target := cache_entry.into_path_buf,
                          filename := wheel.filename }),
                      trace := [Effect.canonicalize cache_entry.path] }
                  else
                    { result := .error (.cacheRead e),
                      trace := [Effect.canonicalize cache_entry.path] }))
    | .directUrl wheel => direct_url_download_flow env dist wheel
    | .path wheel =>
        let cache_entry := path_wheel_cache_entry wheel
        (match env.canonicalize cache_entry.path with
         | .ok archive =>
             (match env.upToDate wheel.path archive with
              | .ok true =>
                  { result := .ok (.unzipped
                      { dist := .built dist, archive := archive,
                        filename := wheel.filename }),
                    trace := [Effect.canonicalize cache_entry.path,
                              Effect.upToDate wheel.path archive] }
              | .ok false =>
                  { result := .ok (.disk
                      { dist := .built dist, path := wheel.path,
                        target := cache_entry.into_path_buf,
                        filename := wheel.filename }),
                    trace := [Effect.canonicalize cache_entry.path,
                              Effect.upToDate wheel.path archive] }
              | .error e =>
                  { result := .error (.cacheRead e),
                    trace := [Effect.canonicalize cache_entry.path,
                              Effect.upToDate wheel.path archive] })
         | .error e =>
             if e.kind = .notFound then
               { result := .ok (.disk
                   { dist := .built dist, path := wheel.path,
                     target := cache_entry.into_path_buf,
                     filename := wheel.filename }),
                 trace := [Effect.canonicalize cache_entry.path] }
             else
               { result := .error (.cacheRead e),
                 trace := [Effect.canonicalize cache_entry.path] })

/-! ### The source-build path -/

/-- `build_wheel` (`distribution_database.rs:306-334`): acquire the
per-identity lock, delegate to the build collaborator, then classify the
returned descriptor by canonicalizing its target: an existing directory is
`Unzipped` (no staleness check — source builds are keyed by a unique build
ID), `NotFound` is `Built` (unpack still pending), any other failure is
`CacheRead`. Note: no `NoBuild` policy check happens here. -/
def build_wheel (env : Env) (dist : SourceDist) (tags : Tags) : Res LocalWheel :=
  let key := LockKey.dist (.source dist)
  match env.downloadAndBuild dist tags with
  | .error e =>
      { result := .error e, trace := [Effect.acquireLock key, Effect.build dist] }
  | .ok built_wheel =>
      match env.canonicalize built_wheel.target with
      | .ok archive =>
          { result := .ok (.unzipped
              { dist := .source dist, archive := archive,
                filename := built_wheel.filename }),
            trace := [Effect.acquireLock key, Effect.build dist,
                      Effect.canonicalize built_wheel.target] }
      | .error e =>
          if e.kind = .notFound then
            { result := .ok (.built
                { dist := .source dist, filename := built_wheel.filename,
                  path := built_wheel.path, target := built_wheel.target }),
              trace := [Effect.acquireLock key, Effect.build dist,
                        Effect.canonicalize built_wheel.target] }
          else
            { result := .error (.cacheRead e),
              trace := [Effect.acquireLock key, Effect.build dist,
                        Effect.canonicalize built_wheel.target] }

/-- `build_wheel_metadata` (`distribution_database.rs:353-379`): check the
`NoBuild` policy first ("Optimization: Skip source dist download when we
must not build them anyway"), then acquire the per-identity lock and
delegate to the build collaborator. -/
def build_wheel_metadata (env : Env) (source : BuildableSource) : Res Metadata23 :=
  if noBuildGate env.noBuild source then
    { result := .error .noBuild, trace := [] }
  else
    let key := LockKey.buildable source
    match env.downloadAndBuildMetadata source with
    | .ok m =>
        { result := .ok m,
          trace := [Effect.acquireLock key, Effect.buildMetadata source] }
    | .error e =>
        { result := .error e,
          trace := [Effect.acquireLock key, Effect.buildMetadata source] }

/-- `get_wheel_metadata` (`distribution_database.rs:337-350`): try the cheap
metadata-only fetch; on a streaming-unsupported client error, fall back to
`get_wheel` plus reading metadata from the local wheel; any other client
error converts to `Error::Client`. No `NoBinary` check of its own. -/
def get_wheel_metadata (env : Env) (dist : BuiltDist) : Res Metadata23 :=
  match env.wheelMetadata dist with
  | .ok m => { result := .ok m, trace := [Effect.fetchMetadata dist] }
  | .error err =>
      if err.streamingUnsupported then
        let w := get_wheel env dist
        match w.result with
        | .ok wheel =>
            (match env.wheelLocalMetadata wheel with
             | .ok m =>
                 { result := .ok m, trace := Effect.fetchMetadata dist :: w.trace }
             | .error e =>
                 { result := .error e.toError,
                   trace := Effect.fetchMetadata dist :: w.trace })
        | .error e =>
            { result := .error e, trace := Effect.fetchMetadata dist :: w.trace }
      else { result := .error (.client err), trace := [Effect.fetchMetadata dist] }

/-- `get_or_build_wheel` (`distribution_database.rs:83-88`). -/
def get_or_build_wheel (env : Env) (dist : Dist) (tags : Tags) : Res LocalWheel :=
  match dist with
  | .built b => get_wheel env b
  | .source s => build_wheel env s tags

/-- `get_or_build_wheel_metadata` (`distribution_database.rs:97-105`). -/
def get_or_build_wheel_metadata (env : Env) (dist : Dist) : Res Metadata23 :=
  match dist with
  | .built b => get_wheel_metadata env b
  | .source s => build_wheel_metadata env (.dist s)

/-! ### The lock registry (spec §4.3, §5)

Modelled from the spec: `crate::locks::Locks` is code of this repository
that is not under `src/` (only its call sites in `build_wheel` /
`build_wheel_metadata` are). The spec describes it as a table of per-identity
exclusive asynchronous mutexes whose guard is acquired before delegating to
the build collaborator and held for the full duration of the build, released
on every exit path; the collaborator leaves a keyed cache destination behind
so that later holders short-circuit instead of redoing the work (§5
"Ordering guarantees").

Concurrent callers are modelled as a transition system: each task (a
`build_wheel`-style caller, indexed by `Nat`) has an identity given by
`ident`, and moves `start → holding → built → done`; `acquire` succeeds only
when no task owns the identity's lock, `work` performs the collaborator call
while the lock is held (invoking the build backend only when the identity's
keyed cache is still empty), and `release` frees the lock. -/

/-- The phase of one concurrent caller. -/
inductive TaskPhase
  | start
  | holding
  | built
  | done
deriving DecidableEq, Repr

/-- A task is "in flight" while it holds the lock (between acquisition and
release): its build/fetch is the one allowed to run for its identity. -/
def TaskPhase.inFlight : TaskPhase → Prop
  | .holding => True
  | .built => True
  | _ => False

instance (p : TaskPhase) : Decidable p.inFlight := by
  cases p <;> simp [TaskPhase.inFlight] <;> infer_instance

/-- Shared state of the lock registry and the builder's keyed cache. -/
structure LockSys where
  /-- Phase of each task. -/
  phase : Nat → TaskPhase
  /-- Current holder of each identity's exclusive lock. -/
  owner : String → Option Nat
  /-- Whether the builder's keyed cache destination for an identity exists. -/
  cache : String → Bool
  /-- Trace of build-backend invocations (by identity), in order. -/
  backendCalls : List String

/-- Initial state: every task at start, no locks held, empty cache. -/
def LockSys.init : LockSys :=
  { phase := fun _ => .start, owner := fun _ => Option.none,
    cache := fun _ => false, backendCalls := [] }

/-- One interleaving step of the concurrent callers. -/
inductive LockStep (ident : Nat → String) : LockSys → LockSys → Prop
  | acquire (s : LockSys) (t : Nat)
      (hp : s.phase t = .start) (ho : s.owner (ident t) = Option.none) :
      LockStep ident s
        { phase := Function.update s.phase t .holding,
          owner := Function.update s.owner (ident t) (some t),
          cache := s.cache, backendCalls := s.backendCalls }
  | work (s : LockSys) (t : Nat)
      (hp : s.phase t = .holding) :
      LockStep ident s
        { phase := Function.update s.phase t .built,
          owner := s.owner,
          cache := Function.update s.cache (ident t) true,
          backendCalls :=
            if s.cache (ident t) then s.backendCalls
            else s.backendCalls ++ [ident t] }
  | release (s : LockSys) (t : Nat)
      (hp : s.phase t = .built) :
      LockStep ident s
        { phase := Function.update s.phase t .done,
          owner := Function.update s.owner (ident t) Option.none,
          cache := s.cache, backendCalls := s.backendCalls }

/-- States reachable from the initial state. -/
inductive LockReachable (ident : Nat → String) : LockSys → Prop
  | init : LockReachable ident LockSys.init
  | step {s s' : LockSys} :
      LockReachable ident s → LockStep ident s s' → LockReachable ident s'

/-- The inductive invariant of the lock registry. -/
def LockInv (ident : Nat → String) (s : LockSys) : Prop :=
  (∀ t, (s.phase t).inFlight → s.owner (ident t) = some t) ∧
  (∀ i t, s.owner i = some t → ident t = i ∧ (s.phase t).inFlight) ∧
  s.backendCalls.Nodup ∧
  (∀ i, s.cache i = true ↔ i ∈ s.backendCalls) ∧
  (∀ t, (s.phase t = .built ∨ s.phase t = .done) → s.cache (ident t) = true)

/-! ### Concrete fixtures for witnesses and counterexamples -/

/-- A concrete package name. -/
def pkgA : PackageName := { name := "a" }

/-- A concrete wheel filename. -/
def fnA : WheelFilename := { name := pkgA, stem := "a-1" }

/-- A concrete registry wheel with an absolute URL location. -/
def regWheel0 : RegistryBuiltDist :=
  { filename := fnA, file := { url := .absoluteUrl "http:u" }, index := "idx" }

/-- A concrete registry wheel whose file location is a local path. -/
def regPathWheel0 : RegistryBuiltDist :=
  { filename := fnA, file := { url := .path "/w/a.whl" }, index := "idx" }

/-- A concrete direct-URL wheel. -/
def urlWheel0 : DirectUrlBuiltDist := { filename := fnA, url := "http:u" }

/-- A concrete local-path wheel. -/
def pathWheel0 : PathBuiltDist :=
  { filename := fnA, url := "file:a", path := "/w/a.whl" }

/-- A concrete source distribution. -/
def sdist0 : SourceDist := { name := pkgA, location := "http:sdist" }

/-- A fully concrete oracle environment where every collaborator succeeds. -/
def env0 : Env :=
  { noBinary := .none, noBuild := .none, connectivity := .online,
    baseUrlJoinRelative := fun _ u => .ok u,
    parseUrl := fun u => .ok u,
    fromFilePath := fun p => "file:" ++ p,
    canonicalize := fun _ => .error { kind := .notFound, msg := "" },
    upToDate := fun _ _ => .ok true,
    freshness := fun _ _ => .ok .fresh,
    getSerde := fun _ _ _ => .cacheHit "arch",
    mkTempDir := .ok "tmpd",
    mkTempFile := .ok "tmpf",
    unzipStream := fun _ _ => .ok (),
    copyToFile := fun _ _ => .ok (),
    seekStart := fun _ => .ok (),
    unzipSeek := fun _ _ => .ok (),
    persist := fun _ _ => .ok "arch",
    wheelMetadata := fun _ => .ok { raw := "md" },
    wheelLocalMetadata := fun _ => .ok { raw := "md" },
    downloadAndBuild := fun _ _ =>
      .ok { path := "bw.whl", target := "bw-dir", filename := fnA },
    downloadAndBuildMetadata := fun _ => .ok { raw := "md" } }

/-- Environment for the C1 counterexample: builds are forbidden by policy,
yet the build collaborator would succeed. -/
def envC1 : Env := { env0 with noBuild := .all }

/-- A streaming-unsupported extract failure. -/
def extractUnsupported : ExtractError := { streamingUnsupported := true, msg := "dd" }

/-- Environment for the C3 counterexample: the cached GET misses, streaming
extraction fails with the streaming-unsupported capability error, while the
seek-based extraction succeeds. -/
def envC3 : Env :=
  { env0 with
    getSerde := fun _ _ _ => .miss { body := "zip" },
    unzipStream := fun _ _ => .error extractUnsupported }

/-- Environment for C2-style witnesses: `NoBinary.all`. -/
def envNoBinary : Env := { env0 with noBinary := .all }

/-- All tasks share one identity in the C9 witness run. -/
def c9Ident : Nat → String := fun _ => "loc"

/-- C9 witness run, step 1: task 0 acquires the lock. -/
def c9S1 : LockSys :=
  { phase := Function.update LockSys.init.phase 0 .holding,
    owner := Function.update LockSys.init.owner (c9Ident 0) (some 0),
    cache := LockSys.init.cache, backendCalls := LockSys.init.backendCalls }

/-- C9 witness run, step 2: task 0 performs the build under the lock. -/
def c9S2 : LockSys :=
  { phase := Function.update c9S1.phase 0 .built,
    owner := c9S1.owner,
    cache := Function.update c9S1.cache (c9Ident 0) true,
    backendCalls :=
      if c9S1.cache (c9Ident 0) then c9S1.backendCalls
      else c9S1.backendCalls ++ [c9Ident 0] }

/-- C9 witness run, step 3: task 0 releases the lock. -/
def c9S3 : LockSys :=
  { phase := Function.update c9S2.phase 0 .done,
    owner := Function.update c9S2.owner (c9Ident 0) Option.none,
    cache := c9S2.cache, backendCalls := c9S2.backendCalls }

/-- How the download-and-unzip arms of `get_wheel` wrap the fetch pipeline's
result (`distribution_database.rs:198-202,210-218`): a fetched archive
becomes an `Unzipped` handle, an error propagates. -/
def wrapUnzipped (dist : BuiltDist) (filename : WheelFilename) :
    Except Error Path → Except Error LocalWheel
  | .ok archive =>
      .ok (.unzipped { dist := .built dist, archive := archive, filename := filename })
  | .error e => .error e

/-- Environment where the cache destination canonicalizes and is up to date. -/
def envFreshCache : Env := { env0 with canonicalize := fun _ => .ok "cached" }

/-- Environment where canonicalizing the cache destination fails with a
non-`NotFound` error. -/
def envCacheDenied : Env :=
  { env0 with canonicalize := fun _ => .error { kind := .permissionDenied, msg := "p" } }

/-- Offline environment. -/
def envOffline : Env := { env0 with connectivity := .offline }

/-- Environment where the direct metadata fetch reports streaming
unsupported and binaries are forbidden (C10's fallback scenario). -/
def envC10 : Env :=
  { envNoBinary with
    wheelMetadata := fun _ => .error { streamingUnsupported := true, msg := "rr" } }

/-- An error that is not one of the two policy rejections. -/
def Error.notPolicy (e : Error) : Prop :=
  e ≠ Error.noBinary ∧ e ≠ Error.noBuild

/-! ## Helper lemmas -/

theorem stream_cache_control_notPolicy (env : Env) (he : CacheEntry)
    (fn : WheelFilename) :
    ∀ e, (stream_cache_control env he fn).result = .error e → e.notPolicy := by
  intro e
  unfold stream_cache_control
  split
  · split <;> (intro h; cases h <;> simp [Error.notPolicy])
  · intro h; cases h <;> simp [Error.notPolicy]

theorem download_cache_control_notPolicy (env : Env) (he : CacheEntry)
    (fn : WheelFilename) :
    ∀ e, (download_cache_control env he fn).result = .error e → e.notPolicy := by
  intro e
  unfold download_cache_control
  split
  · split <;> (intro h; cases h <;> simp [Error.notPolicy])
  · intro h; cases h <;> simp [Error.notPolicy]

theorem stream_download_notPolicy (env : Env) (response : Response)
    (wheel_entry : CacheEntry) :
    ∀ e, (stream_download env response wheel_entry).result = .error e →
      e.notPolicy := by
  intro e
  unfold stream_download
  split
  · intro h; cases h <;> simp [Error.notPolicy]
  · split
    · intro h; cases h <;> simp [Error.notPolicy]
    · split <;> (intro h; cases h <;> simp [Error.notPolicy])

theorem download_download_notPolicy (env : Env) (response : Response)
    (wheel_entry : CacheEntry) :
    ∀ e, (download_download env response wheel_entry).result = .error e →
      e.notPolicy := by
  intro e
  unfold download_download
  split
  · intro h; cases h <;> simp [Error.notPolicy]
  · split
    · intro h; cases h <;> simp [Error.notPolicy]
    · split
      · intro h; cases h <;> simp [Error.notPolicy]
      · split
        · intro h; cases h <;> simp [Error.notPolicy]
        · split
          · intro h; cases h <;> simp [Error.notPolicy]
          · split <;> (intro h; cases h <;> simp [Error.notPolicy])

theorem stream_wheel_notPolicy (env : Env) (url : Url) (filename : WheelFilename)
    (wheel_entry : CacheEntry) :
    ∀ e, (stream_wheel env url filename wheel_entry).result = .error e →
      e.notPolicy := by
  intro e
  simp only [stream_wheel]
  split
  · next e' heq =>
      intro h
      simp only [Except.error.injEq] at h
      exact h ▸ stream_cache_control_notPolicy env _ filename e' heq
  · split
    · intro h; cases h <;> simp [Error.notPolicy]
    · intro h; cases h <;> simp [Error.notPolicy]
    · intro h
      exact stream_download_notPolicy env _ wheel_entry e h

theorem download_wheel_notPolicy (env : Env) (url : Url) (filename : WheelFilename)
    (wheel_entry : CacheEntry) :
    ∀ e, (download_wheel env url filename wheel_entry).result = .error e →
      e.notPolicy := by
  intro e
  simp only [download_wheel]
  split
  · next e' heq =>
      intro h
      simp only [Except.error.injEq] at h
      exact h ▸ download_cache_control_notPolicy env _ filename e' heq
  · split
    · intro h; cases h <;> simp [Error.notPolicy]
    · intro h; cases h <;> simp [Error.notPolicy]
    · intro h
      exact download_download_notPolicy env _ wheel_entry e h

theorem registry_download_flow_notPolicy (env : Env) (dist : BuiltDist)
    (wheel : RegistryBuiltDist) (url : Url) :
    ∀ e, (registry_download_flow env dist wheel url).result = .error e →
      e.notPolicy := by
  intro e
  simp only [registry_download_flow]
  split
  · intro h
    cases h
  · split
    · split <;>
        (intro h
         cases h <;>
           first
             | (simp [Error.notPolicy]; done)
             | exact download_wheel_notPolicy _ _ _ _ _ (by assumption)
             | exact stream_wheel_notPolicy _ _ _ _ _ (by assumption))
    · intro h
      cases h <;> simp [Error.notPolicy]
  · intro h
    cases h <;> exact stream_wheel_notPolicy _ _ _ _ _ (by assumption)

theorem direct_url_download_flow_notPolicy (env : Env) (dist : BuiltDist)
    (wheel : DirectUrlBuiltDist) :
    ∀ e, (direct_url_download_flow env dist wheel).result = .error e →
      e.notPolicy := by
  intro e
  simp only [direct_url_download_flow]
  split
  · intro h
    cases h
  · split
    · split <;>
        (intro h
         cases h <;>
           first
             | (simp [Error.notPolicy]; done)
             | exact download_wheel_notPolicy _ _ _ _ _ (by assumption)
             | exact stream_wheel_notPolicy _ _ _ _ _ (by assumption))
    · intro h
      cases h <;> simp [Error.notPolicy]
  · intro h
    cases h <;> exact stream_wheel_notPolicy _ _ _ _ _ (by assumption)

/-- With the `NoBinary` gate passed, no error `get_wheel` produces is a
policy rejection. -/
theorem get_wheel_notPolicy (env : Env) (dist : BuiltDist)
    (hgate : noBinaryGate env.noBinary dist.name = false) :
    ∀ e, (get_wheel env dist).result = .error e → e.notPolicy := by
  intro e
  unfold get_wheel
  rw [hgate]
  simp only [Bool.false_eq_true, if_false]
  match dist with
  | .registry wheel =>
      simp only []
      match hurl : wheel.file.url with
      | .relativeUrl base u =>
          simp only []
          split
          · intro h; cases h <;> simp [Error.notPolicy]
          · intro h
            exact registry_download_flow_notPolicy env _ wheel _ e h
      | .absoluteUrl u =>
          simp only []
          split
          · intro h; cases h <;> simp [Error.notPolicy]
          · intro h
            exact registry_download_flow_notPolicy env _ wheel _ e h
      | .path p =>
          simp only []
          split
          · split <;> (intro h; cases h <;> simp [Error.notPolicy])
          · split <;> (intro h; cases h <;> simp [Error.notPolicy])
  | .directUrl wheel =>
      intro h
      exact direct_url_download_flow_notPolicy env _ wheel e h
  | .path wheel =>
      simp only []
      split
      · split <;> (intro h; cases h <;> simp [Error.notPolicy])
      · split <;> (intro h; cases h <;> simp [Error.notPolicy])

theorem stream_download_no_marker (env : Env) (response : Response)
    (wheel_entry : CacheEntry) (u : Url) :
    (stream_download env response wheel_entry).trace.count
      (Effect.downloadStrategy u) = 0 := by
  unfold stream_download
  split
  · simp
  · split
    · simp
    · split <;> simp

theorem download_download_no_marker (env : Env) (response : Response)
    (wheel_entry : CacheEntry) (u : Url) :
    (download_download env response wheel_entry).trace.count
      (Effect.downloadStrategy u) = 0 := by
  unfold download_download
  split
  · simp
  · split
    · simp
    · split
      · simp
      · split
        · simp
        · split
          · simp
          · split <;> simp

theorem stream_cache_control_no_marker (env : Env) (he : CacheEntry)
    (fn : WheelFilename) (u : Url) :
    (stream_cache_control env he fn).trace.count (Effect.downloadStrategy u) = 0 := by
  unfold stream_cache_control
  split
  · split <;> simp
  · simp

theorem download_cache_control_no_marker (env : Env) (he : CacheEntry)
    (fn : WheelFilename) (u : Url) :
    (download_cache_control env he fn).trace.count (Effect.downloadStrategy u) = 0 := by
  unfold download_cache_control
  split
  · split <;> simp
  · simp

/-- The streaming strategy never records a buffered-strategy invocation. -/
theorem stream_wheel_no_marker (env : Env) (url : Url) (filename : WheelFilename)
    (wheel_entry : CacheEntry) (u : Url) :
    (stream_wheel env url filename wheel_entry).trace.count
      (Effect.downloadStrategy u) = 0 := by
  simp only [stream_wheel]
  split
  · simp [List.count_cons, stream_cache_control_no_marker]
  · split <;>
      simp [List.count_cons, List.count_append, stream_cache_control_no_marker,
        stream_download_no_marker]

/-- The buffered strategy records exactly one invocation of itself. -/
theorem download_wheel_one_marker (env : Env) (url : Url) (filename : WheelFilename)
    (wheel_entry : CacheEntry) :
    (download_wheel env url filename wheel_entry).trace.count
      (Effect.downloadStrategy url) = 1 := by
  simp only [download_wheel]
  split
  · simp [List.count_cons, download_cache_control_no_marker]
  · split <;>
      simp [List.count_cons, List.count_append, download_cache_control_no_marker,
        download_download_no_marker]

/-! ## Claims -/

/-- C1 counterexample: with `NoBuild::All` and a build collaborator that
succeeds, `get_or_build_wheel` on a source distribution does not fail with
the `NoBuild` rejection — it acquires the lock and performs the build —
while `build_wheel_metadata` on the very same input does reject before any
work. So the wheel path is not gated "just as the metadata path". -/
theorem c1_counterexample :
    (get_or_build_wheel envC1 (.source sdist0) "t").result ≠
      .error Error.noBuild ∧
    Effect.build sdist0 ∈ (get_or_build_wheel envC1 (.source sdist0) "t").trace ∧
    build_wheel_metadata envC1 (.dist sdist0) =
      { result := .error Error.noBuild, trace := [] } := by
  refine ⟨by decide, by decide, by decide⟩

/-- C1 (amended): the `NoBuild` policy gates only the metadata path.
`build_wheel_metadata` rejects a covered source with `Error::NoBuild` before
any lock or build work (empty effect trace), while `get_or_build_wheel` on a
source distribution never consults the `NoBuild` policy at all: its result
and trace are invariant under changing that policy, and any enforcement on
the wheel path is left to the build collaborator. -/
theorem c1_no_build_gate_metadata_only (env : Env) (dist : SourceDist)
    (tags : Tags) (source : BuildableSource) :
    (noBuildGate env.noBuild source = true →
      build_wheel_metadata env source =
        { result := .error Error.noBuild, trace := [] }) ∧
    (∀ p q : NoBuild,
      get_or_build_wheel { env with noBuild := p } (.source dist) tags =
        get_or_build_wheel { env with noBuild := q } (.source dist) tags) := by
  constructor
  · intro h
    unfold build_wheel_metadata
    rw [h]
    simp
  · intro p q
    rfl

/-- C1 witness: the amended claim at the concrete fixture. -/
theorem c1_no_build_gate_metadata_only_witness :
    build_wheel_metadata envC1 (.dist sdist0) =
      { result := .error Error.noBuild, trace := [] } :=
  (c1_no_build_gate_metadata_only envC1 sdist0 "t" (.dist sdist0)).1 (by decide)

/-- C2: `get_wheel` enforces the `NoBinary` policy defensively before any
other work: a covered built distribution fails with `Error::NoBinary` with
an empty effect trace (no network request, no URL computation, no cache
access), and an uncovered one can never produce `Error::NoBinary`. -/
theorem c2_no_binary_gate (env : Env) (dist : BuiltDist) :
    (noBinaryGate env.noBinary dist.name = true →
      get_wheel env dist = { result := .error Error.noBinary, trace := [] }) ∧
    (noBinaryGate env.noBinary dist.name = false →
      (get_wheel env dist).result ≠ .error Error.noBinary) := by
  constructor
  · intro h
    unfold get_wheel
    rw [h]
    simp
  · intro h hcontra
    exact (get_wheel_notPolicy env dist h Error.noBinary hcontra).1 rfl

/-- C2 witness: both directions at concrete fixtures. -/
theorem c2_no_binary_gate_witness :
    get_wheel envNoBinary (.registry regWheel0) =
      { result := .error Error.noBinary, trace := [] } ∧
    (get_wheel env0 (.registry regWheel0)).result ≠ .error Error.noBinary :=
  ⟨(c2_no_binary_gate envNoBinary (.registry regWheel0)).1 (by decide),
   (c2_no_binary_gate env0 (.registry regWheel0)).2 (by decide)⟩

/-- C3 counterexample: for the same environment — the cached GET misses and
streaming extraction fails with the streaming-unsupported capability error
(`is_http_streaming_unsupported() = true`), seek extraction succeeds — the
registry branch invokes the buffered strategy once and succeeds, while the
direct-URL branch propagates the very same streaming-unsupported failure
with zero buffered attempts. The fallback behaviour is therefore not the
same for the two branches, and in the direct-URL branch the
streaming-unsupported failure does not trigger the buffered strategy. -/
theorem c3_counterexample :
    extractUnsupported.streamingUnsupported = true ∧
    (stream_wheel envC3 "http:u" fnA (registry_wheel_entry regWheel0)).result =
      .error (.extract extractUnsupported) ∧
    (stream_wheel envC3 urlWheel0.url fnA (direct_url_wheel_entry urlWheel0)).result =
      .error (.extract extractUnsupported) ∧
    (registry_download_flow envC3 (.registry regWheel0) regWheel0 "http:u").result =
      .ok (.unzipped
        { dist := .built (.registry regWheel0), archive := "arch", filename := fnA }) ∧
    (registry_download_flow envC3 (.registry regWheel0) regWheel0 "http:u").trace.count
      (Effect.downloadStrategy "http:u") = 1 ∧
    (direct_url_download_flow envC3 (.directUrl urlWheel0) urlWheel0).result =
      .error (.extract extractUnsupported) ∧
    (direct_url_download_flow envC3 (.directUrl urlWheel0) urlWheel0).trace.count
      (Effect.downloadStrategy "http:u") = 0 := by
  refine ⟨by decide, by decide, by decide, by decide, by decide, by decide, by decide⟩

/-- C3 (amended): the capability fallback is branch-specific. In the
registry arm only an `Error::Extract` failure with
`is_http_streaming_unsupported()` triggers the single buffered retry, whose
result is returned; in the direct-URL arm only an `Error::Client` such
failure does. Every other `stream_wheel` failure — including a
`Client`-wrapped streaming-unsupported error in the registry arm and an
`Extract`-wrapped one in the direct-URL arm — propagates unchanged with no
buffered attempt. -/
theorem c3_fallback_asymmetric (env : Env) (dist : BuiltDist)
    (wheel : RegistryBuiltDist) (dwheel : DirectUrlBuiltDist) (url : Url) :
    (∀ e, e.streamingUnsupported = true →
      (stream_wheel env url wheel.filename (registry_wheel_entry wheel)).result =
        .error (.extract e) →
      registry_download_flow env dist wheel url =
        { result := wrapUnzipped dist wheel.filename
            (download_wheel env url wheel.filename (registry_wheel_entry wheel)).result,
          trace :=
            (stream_wheel env url wheel.filename (registry_wheel_entry wheel)).trace ++
            (download_wheel env url wheel.filename (registry_wheel_entry wheel)).trace } ∧
      (registry_download_flow env dist wheel url).trace.count
        (Effect.downloadStrategy url) = 1) ∧
    (∀ e, e.streamingUnsupported = false →
      (stream_wheel env url wheel.filename (registry_wheel_entry wheel)).result =
        .error (.extract e) →
      registry_download_flow env dist wheel url =
        { result := .error (.extract e),
          trace := (stream_wheel env url wheel.filename (registry_wheel_entry wheel)).trace } ∧
      (registry_download_flow env dist wheel url).trace.count
        (Effect.downloadStrategy url) = 0) ∧
    (∀ e, (stream_wheel env url wheel.filename (registry_wheel_entry wheel)).result =
        .error (.client e) →
      registry_download_flow env dist wheel url =
        { result := .error (.client e),
          trace := (stream_wheel env url wheel.filename (registry_wheel_entry wheel)).trace } ∧
      (registry_download_flow env dist wheel url).trace.count
        (Effect.downloadStrategy url) = 0) ∧
    (∀ e, e.streamingUnsupported = true →
      (stream_wheel env dwheel.url dwheel.filename (direct_url_wheel_entry dwheel)).result =
        .error (.client e) →
      direct_url_download_flow env dist dwheel =
        { result := wrapUnzipped dist dwheel.filename
            (download_wheel env dwheel.url dwheel.filename
              (direct_url_wheel_entry dwheel)).result,
          trace :=
            (stream_wheel env dwheel.url dwheel.filename
              (direct_url_wheel_entry dwheel)).trace ++
            (download_wheel env dwheel.url dwheel.filename
              (direct_url_wheel_entry dwheel)).trace } ∧
      (direct_url_download_flow env dist dwheel).trace.count
        (Effect.downloadStrategy dwheel.url) = 1) ∧
    (∀ e, e.streamingUnsupported = false →
      (stream_wheel env dwheel.url dwheel.filename (direct_url_wheel_entry dwheel)).result =
        .error (.client e) →
      direct_url_download_flow env dist dwheel =
        { result := .error (.client e),
          trace := (stream_wheel env dwheel.url dwheel.filename
            (direct_url_wheel_entry dwheel)).trace } ∧
      (direct_url_download_flow env dist dwheel).trace.count
        (Effect.downloadStrategy dwheel.url) = 0) ∧
    (∀ e, (stream_wheel env dwheel.url dwheel.filename (direct_url_wheel_entry dwheel)).result =
        .error (.extract e) →
      direct_url_download_flow env dist dwheel =
        { result := .error (.extract e),
          trace := (stream_wheel env dwheel.url dwheel.filename
            (direct_url_wheel_entry dwheel)).trace } ∧
      (direct_url_download_flow env dist dwheel).trace.count
        (Effect.downloadStrategy dwheel.url) = 0) ∧
    (∀ err, (stream_wheel env url wheel.filename (registry_wheel_entry wheel)).result =
        .error err → (∀ e, err ≠ Error.extract e) →
      registry_download_flow env dist wheel url =
        { result := .error err,
          trace := (stream_wheel env url wheel.filename (registry_wheel_entry wheel)).trace } ∧
      (registry_download_flow env dist wheel url).trace.count
        (Effect.downloadStrategy url) = 0) ∧
    (∀ err, (stream_wheel env dwheel.url dwheel.filename (direct_url_wheel_entry dwheel)).result =
        .error err → (∀ e, err ≠ Error.client e) →
      direct_url_download_flow env dist dwheel =
        { result := .error err,
          trace := (stream_wheel env dwheel.url dwheel.filename
            (direct_url_wheel_entry dwheel)).trace } ∧
      (direct_url_download_flow env dist dwheel).trace.count
        (Effect.downloadStrategy dwheel.url) = 0) := by
  refine ⟨?_, ?_, ?_, ?_, ?_, ?_, ?_, ?_⟩
  · intro e he hs
    constructor
    · simp only [registry_download_flow, hs, he]
      cases hd : (download_wheel env url wheel.filename (registry_wheel_entry wheel)).result <;>
        simp [wrapUnzipped, hd]
    · simp only [registry_download_flow, hs, he]
      cases hd : (download_wheel env url wheel.filename (registry_wheel_entry wheel)).result <;>
        simp [List.count_append, stream_wheel_no_marker,
          download_wheel_one_marker, hd]
  · intro e he hs
    constructor
    · simp [registry_download_flow, hs, he]
    · simp [registry_download_flow, hs, he, stream_wheel_no_marker]
  · intro e hs
    constructor
    · simp [registry_download_flow, hs]
    · simp [registry_download_flow, hs, stream_wheel_no_marker]
  · intro e he hs
    constructor
    · simp only [direct_url_download_flow, hs, he]
      cases hd : (download_wheel env dwheel.url dwheel.filename
          (direct_url_wheel_entry dwheel)).result <;>
        simp [wrapUnzipped, hd]
    · simp only [direct_url_download_flow, hs, he]
      cases hd : (download_wheel env dwheel.url dwheel.filename
          (direct_url_wheel_entry dwheel)).result <;>
        simp [List.count_append, stream_wheel_no_marker,
          download_wheel_one_marker, hd]
  · intro e he hs
    constructor
    · simp [direct_url_download_flow, hs, he]
    · simp [direct_url_download_flow, hs, he, stream_wheel_no_marker]
  · intro e hs
    constructor
    · simp [direct_url_download_flow, hs]
    · simp [direct_url_download_flow, hs, stream_wheel_no_marker]
  · intro err hs hne
    constructor
    · cases err <;>
        first
          | exact absurd rfl (hne _)
          | simp [registry_download_flow, hs]
    · cases err <;>
        first
          | exact absurd rfl (hne _)
          | simp [registry_download_flow, hs, stream_wheel_no_marker]
  · intro err hs hne
    constructor
    · cases err <;>
        first
          | exact absurd rfl (hne _)
          | simp [direct_url_download_flow, hs]
    · cases err <;>
        first
          | exact absurd rfl (hne _)
          | simp [direct_url_download_flow, hs, stream_wheel_no_marker]

/-- C3 witness: the direct-URL fallback arm at a concrete environment where
`stream_wheel` fails with a `Client`-wrapped streaming-unsupported error. -/
theorem c3_fallback_asymmetric_witness :
    direct_url_download_flow
        { env0 with getSerde := fun _ _ _ => .clientError { streamingUnsupported := true, msg := "s" } }
        (.directUrl urlWheel0) urlWheel0 =
      { result := wrapUnzipped (.directUrl urlWheel0) urlWheel0.filename
          (download_wheel
            { env0 with getSerde := fun _ _ _ => .clientError { streamingUnsupported := true, msg := "s" } }
            urlWheel0.url urlWheel0.filename (direct_url_wheel_entry urlWheel0)).result,
        trace :=
          (stream_wheel
            { env0 with getSerde := fun _ _ _ => .clientError { streamingUnsupported := true, msg := "s" } }
            urlWheel0.url urlWheel0.filename (direct_url_wheel_entry urlWheel0)).trace ++
          (download_wheel
            { env0 with getSerde := fun _ _ _ => .clientError { streamingUnsupported := true, msg := "s" } }
            urlWheel0.url urlWheel0.filename (direct_url_wheel_entry urlWheel0)).trace } ∧
    (direct_url_download_flow
        { env0 with getSerde := fun _ _ _ => .clientError { streamingUnsupported := true, msg := "s" } }
        (.directUrl urlWheel0) urlWheel0).trace.count
      (Effect.downloadStrategy urlWheel0.url) = 1 :=
  (c3_fallback_asymmetric
    { env0 with getSerde := fun _ _ _ => .clientError { streamingUnsupported := true, msg := "s" } }
    (.directUrl urlWheel0) regWheel0 urlWheel0 "http:u").2.2.2.1
    { streamingUnsupported := true, msg := "s" } (by decide) (by decide)

/-- C4: for a built distribution at a local filesystem path (both the
`BuiltDist::Path` arm and the registry arm whose file location is a local
path), if the canonical cache destination exists and the timestamp oracle
reports it up to date with the source file, `get_wheel` returns an
`Unzipped` handle for the cached directory — its trace shows only the
canonicalize and timestamp probes, so no network or unpack work happens —
and otherwise (stale, or destination absent) it returns a `Disk` handle
whose path is the source file and whose target is the cache destination. -/
theorem c4_local_path_freshness (env : Env) (wheel : PathBuiltDist)
    (rwheel : RegistryBuiltDist) (p : Path)
    (hb : noBinaryGate env.noBinary wheel.name = false)
    (hrb : noBinaryGate env.noBinary rwheel.name = false)
    (hurl : rwheel.file.url = .path p) :
    (∀ archive, env.canonicalize (path_wheel_cache_entry wheel).path = .ok archive →
      env.upToDate wheel.path archive = .ok true →
      get_wheel env (.path wheel) =
        { result := .ok (.unzipped
            { dist := .built (.path wheel), archive := archive,
              filename := wheel.filename }),
          trace := [Effect.canonicalize (path_wheel_cache_entry wheel).path,
                    Effect.upToDate wheel.path archive] }) ∧
    (∀ archive, env.canonicalize (path_wheel_cache_entry wheel).path = .ok archive →
      env.upToDate wheel.path archive = .ok false →
      get_wheel env (.path wheel) =
        { result := .ok (.disk
            { dist := .built (.path wheel), path := wheel.path,
              target := (path_wheel_cache_entry wheel).into_path_buf,
              filename := wheel.filename }),
          trace := [Effect.canonicalize (path_wheel_cache_entry wheel).path,
                    Effect.upToDate wheel.path archive] }) ∧
    (∀ e, env.canonicalize (path_wheel_cache_entry wheel).path = .error e →
      e.kind = .notFound →
      get_wheel env (.path wheel) =
        { result := .ok (.disk
            { dist := .built (.path wheel), path := wheel.path,
              target := (path_wheel_cache_entry wheel).into_path_buf,
              filename := wheel.filename }),
          trace := [Effect.canonicalize (path_wheel_cache_entry wheel).path] }) ∧
    (∀ archive,
      env.canonicalize (registry_path_cache_entry rwheel (env.fromFilePath p)).path =
        .ok archive →
      env.upToDate p archive = .ok true →
      get_wheel env (.registry rwheel) =
        { result := .ok (.unzipped
            { dist := .built (.registry rwheel), archive := archive,
              filename := rwheel.filename }),
          trace := [Effect.canonicalize
              (registry_path_cache_entry rwheel (env.fromFilePath p)).path,
            Effect.upToDate p archive] }) ∧
    (∀ archive,
      env.canonicalize (registry_path_cache_entry rwheel (env.fromFilePath p)).path =
        .ok archive →
      env.upToDate p archive = .ok false →
      get_wheel env (.registry rwheel) =
        { result := .ok (.disk
            { dist := .built (.registry rwheel), path := p,
              target := (registry_path_cache_entry rwheel (env.fromFilePath p)).into_path_buf,
              filename := rwheel.filename }),
          trace := [Effect.canonicalize
              (registry_path_cache_entry rwheel (env.fromFilePath p)).path,
            Effect.upToDate p archive] }) ∧
    (∀ e,
      env.canonicalize (registry_path_cache_entry rwheel (env.fromFilePath p)).path =
        .error e →
      e.kind = .notFound →
      get_wheel env (.registry rwheel) =
        { result := .ok (.disk
            { dist := .built (.registry rwheel), path := p,
              target := (registry_path_cache_entry rwheel (env.fromFilePath p)).into_path_buf,
              filename := rwheel.filename }),
          trace := [Effect.canonicalize
              (registry_path_cache_entry rwheel (env.fromFilePath p)).path] }) := by
  refine ⟨?_, ?_, ?_, ?_, ?_, ?_⟩
  · intro archive hc hu
    simp [get_wheel, BuiltDist.name, hb, hc, hu]
  · intro archive hc hu
    simp [get_wheel, BuiltDist.name, hb, hc, hu]
  · intro e hc hk
    simp [get_wheel, BuiltDist.name, hb, hc, hk]
  · intro archive hc hu
    simp [get_wheel, BuiltDist.name, hrb, hurl, hc, hu]
  · intro archive hc hu
    simp [get_wheel, BuiltDist.name, hrb, hurl, hc, hu]
  · intro e hc hk
    simp [get_wheel, BuiltDist.name, hrb, hurl, hc, hk]

/-- C4 witness: the fresh-cache and cache-absent cases at concrete fixtures. -/
theorem c4_local_path_freshness_witness :
    get_wheel envFreshCache (.path pathWheel0) =
      { result := .ok (.unzipped
          { dist := .built (.path pathWheel0), archive := "cached", filename := fnA }),
        trace := [Effect.canonicalize (path_wheel_cache_entry pathWheel0).path,
                  Effect.upToDate pathWheel0.path "cached"] } ∧
    get_wheel env0 (.path pathWheel0) =
      { result := .ok (.disk
          { dist := .built (.path pathWheel0), path := pathWheel0.path,
            target := (path_wheel_cache_entry pathWheel0).into_path_buf,
            filename := fnA }),
        trace := [Effect.canonicalize (path_wheel_cache_entry pathWheel0).path] } :=
  ⟨(c4_local_path_freshness envFreshCache pathWheel0 regPathWheel0 "/w/a.whl"
      (by decide) (by decide) (by decide)).1 "cached" (by decide) (by decide),
   (c4_local_path_freshness env0 pathWheel0 regPathWheel0 "/w/a.whl"
      (by decide) (by decide) (by decide)).2.2.1
      { kind := .notFound, msg := "" } (by decide) (by decide)⟩

/-- C5: after the build collaborator returns a descriptor, `build_wheel`
classifies it by canonicalizing the descriptor's target: success yields an
`Unzipped` handle for the existing directory with no timestamp/staleness
probe in the trace; a `NotFound` failure yields a `Built` handle carrying
the descriptor's path and target; any other failure is `Error::CacheRead`. -/
theorem c5_build_result_classification (env : Env) (dist : SourceDist)
    (tags : Tags) (bw : SourceBuiltWheel)
    (hbuild : env.downloadAndBuild dist tags = .ok bw) :
    (∀ archive, env.canonicalize bw.target = .ok archive →
      build_wheel env dist tags =
        { result := .ok (.unzipped
            { dist := .source dist, archive := archive, filename := bw.filename }),
          trace := [Effect.acquireLock (.dist (.source dist)), Effect.build dist,
                    Effect.canonicalize bw.target] }) ∧
    (∀ e, env.canonicalize bw.target = .error e → e.kind = .notFound →
      build_wheel env dist tags =
        { result := .ok (.built
            { dist := .source dist, filename := bw.filename,
              path := bw.path, target := bw.target }),
          trace := [Effect.acquireLock (.dist (.source dist)), Effect.build dist,
                    Effect.canonicalize bw.target] }) ∧
    (∀ e, env.canonicalize bw.target = .error e → e.kind ≠ .notFound →
      build_wheel env dist tags =
        { result := .error (.cacheRead e),
          trace := [Effect.acquireLock (.dist (.source dist)), Effect.build dist,
                    Effect.canonicalize bw.target] }) := by
  refine ⟨?_, ?_, ?_⟩
  · intro archive hc
    simp [build_wheel, hbuild, hc]
  · intro e hc hk
    simp [build_wheel, hbuild, hc, hk]
  · intro e hc hk
    simp [build_wheel, hbuild, hc, hk]

/-- C5 witness: the `Unzipped` and `Built` classifications at fixtures. -/
theorem c5_build_result_classification_witness :
    build_wheel envFreshCache sdist0 "t" =
      { result := .ok (.unzipped
          { dist := .source sdist0, archive := "cached", filename := fnA }),
        trace := [Effect.acquireLock (.dist (.source sdist0)), Effect.build sdist0,
                  Effect.canonicalize "bw-dir"] } ∧
    build_wheel env0 sdist0 "t" =
      { result := .ok (.built
          { dist := .source sdist0, filename := fnA,
            path := "bw.whl", target := "bw-dir" }),
        trace := [Effect.acquireLock (.dist (.source sdist0)), Effect.build sdist0,
                  Effect.canonicalize "bw-dir"] } :=
  ⟨(c5_build_result_classification envFreshCache sdist0 "t"
      { path := "bw.whl", target := "bw-dir", filename := fnA } (by decide)).1
      "cached" (by decide),
   (c5_build_result_classification env0 sdist0 "t"
      { path := "bw.whl", target := "bw-dir", filename := fnA } (by decide)).2.1
      { kind := .notFound, msg := "" } (by decide) (by decide)⟩

/-- C6: in both fetch strategies, `Offline` connectivity makes the
cache-control decision unconditionally `AllowStale` (and the cached GET is
issued with it — no freshness probe, no failure), while `Online` derives
the decision from the cache collaborator's freshness check on the HTTP
entry, whose failure surfaces as `CacheRead`. -/
theorem c6_offline_allow_stale (env : Env) (url : Url) (filename : WheelFilename)
    (wheel_entry : CacheEntry) :
    (env.connectivity = .offline →
      stream_cache_control env (stream_http_entry wheel_entry filename) filename =
        { result := .ok .allowStale, trace := [] } ∧
      download_cache_control env (download_http_entry wheel_entry filename) filename =
        { result := .ok .allowStale, trace := [] } ∧
      (stream_wheel env url filename wheel_entry).trace.take 2 =
        [Effect.streamStrategy url,
         Effect.getSerde (request url) (stream_http_entry wheel_entry filename)
           .allowStale] ∧
      (download_wheel env url filename wheel_entry).trace.take 2 =
        [Effect.downloadStrategy url,
         Effect.getSerde (request url) (download_http_entry wheel_entry filename)
           .allowStale]) ∧
    (env.connectivity = .online →
      (∀ f, env.freshness (stream_http_entry wheel_entry filename) filename.name =
          .ok f →
        (stream_cache_control env (stream_http_entry wheel_entry filename)
            filename).result = .ok (.ofFreshness f) ∧
        (download_cache_control env (download_http_entry wheel_entry filename)
            filename).result = .ok (.ofFreshness f)) ∧
      (∀ e, env.freshness (stream_http_entry wheel_entry filename) filename.name =
          .error e →
        (stream_wheel env url filename wheel_entry).result = .error (.cacheRead e) ∧
        (download_wheel env url filename wheel_entry).result =
          .error (.cacheRead e))) := by
  constructor
  · intro hoff
    refine ⟨?_, ?_, ?_, ?_⟩
    · simp [stream_cache_control, hoff]
    · simp [download_cache_control, hoff]
    · simp only [stream_wheel, stream_cache_control, hoff]
      cases hg : env.getSerde (request url) (stream_http_entry wheel_entry filename)
          .allowStale <;> simp
    · simp only [download_wheel, download_cache_control, download_http_entry, hoff]
      cases hg : env.getSerde (request url)
          (wheel_entry.with_file (filename.stem ++ ".http")) .allowStale <;>
        simp [stream_http_entry]
  · intro hon
    constructor
    · intro f hf
      simp only [stream_http_entry] at hf
      constructor
      · simp [stream_cache_control, stream_http_entry, hon, hf]
      · simp [download_cache_control, download_http_entry, hon, hf]
    · intro e he
      simp only [stream_http_entry] at he
      constructor
      · simp [stream_wheel, stream_cache_control, stream_http_entry, hon, he]
      · simp [download_wheel, download_cache_control, download_http_entry, hon, he]

/-- C6 witness: offline and online cases at concrete fixtures. -/
theorem c6_offline_allow_stale_witness :
    stream_cache_control envOffline
        (stream_http_entry (registry_wheel_entry regWheel0) fnA) fnA =
      { result := .ok .allowStale, trace := [] } ∧
    (stream_cache_control env0
        (stream_http_entry (registry_wheel_entry regWheel0) fnA) fnA).result =
      .ok (.ofFreshness .fresh) :=
  ⟨((c6_offline_allow_stale envOffline "http:u" fnA
      (registry_wheel_entry regWheel0)).1 (by decide)).1,
   (((c6_offline_allow_stale env0 "http:u" fnA
      (registry_wheel_entry regWheel0)).2 (by decide)).1 .fresh (by decide)).1⟩

/-- C7: in each of the three canonicalize-based cache-hit probes (the two
local-path built arms and the source-build classification), a `NotFound`
failure is treated as "artifact absent" and resolution proceeds to a
non-error handle, while every other canonicalize failure surfaces as
`Error::CacheRead`. -/
theorem c7_not_found_is_absence (env : Env) (wheel : PathBuiltDist)
    (rwheel : RegistryBuiltDist) (p : Path) (dist : SourceDist) (tags : Tags)
    (bw : SourceBuiltWheel)
    (hb : noBinaryGate env.noBinary wheel.name = false)
    (hrb : noBinaryGate env.noBinary rwheel.name = false)
    (hurl : rwheel.file.url = .path p)
    (hbuild : env.downloadAndBuild dist tags = .ok bw) :
    (∀ e, env.canonicalize (path_wheel_cache_entry wheel).path = .error e →
      (e.kind = .notFound →
        get_wheel env (.path wheel) =
          { result := .ok (.disk
              { dist := .built (.path wheel), path := wheel.path,
                target := (path_wheel_cache_entry wheel).into_path_buf,
                filename := wheel.filename }),
            trace := [Effect.canonicalize (path_wheel_cache_entry wheel).path] }) ∧
      (e.kind ≠ .notFound →
        get_wheel env (.path wheel) =
          { result := .error (.cacheRead e),
            trace := [Effect.canonicalize (path_wheel_cache_entry wheel).path] })) ∧
    (∀ e,
      env.canonicalize (registry_path_cache_entry rwheel (env.fromFilePath p)).path =
        .error e →
      (e.kind = .notFound →
        get_wheel env (.registry rwheel) =
          { result := .ok (.disk
              { dist := .built (.registry rwheel), path := p,
                target := (registry_path_cache_entry rwheel
                  (env.fromFilePath p)).into_path_buf,
                filename := rwheel.filename }),
            trace := [Effect.canonicalize
              (registry_path_cache_entry rwheel (env.fromFilePath p)).path] }) ∧
      (e.kind ≠ .notFound →
        get_wheel env (.registry rwheel) =
          { result := .error (.cacheRead e),
            trace := [Effect.canonicalize
              (registry_path_cache_entry rwheel (env.fromFilePath p)).path] })) ∧
    (∀ e, env.canonicalize bw.target = .error e →
      (e.kind = .notFound →
        build_wheel env dist tags =
          { result := .ok (.built
              { dist := .source dist, filename := bw.filename,
                path := bw.path, target := bw.target }),
            trace := [Effect.acquireLock (.dist (.source dist)), Effect.build dist,
                      Effect.canonicalize bw.target] }) ∧
      (e.kind ≠ .notFound →
        build_wheel env dist tags =
          { result := .error (.cacheRead e),
            trace := [Effect.acquireLock (.dist (.source dist)), Effect.build dist,
                      Effect.canonicalize bw.target] })) := by
  refine ⟨?_, ?_, ?_⟩
  · intro e hc
    constructor
    · intro hk
      simp [get_wheel, BuiltDist.name, hb, hc, hk]
    · intro hk
      simp [get_wheel, BuiltDist.name, hb, hc, hk]
  · intro e hc
    constructor
    · intro hk
      simp [get_wheel, BuiltDist.name, hrb, hurl, hc, hk]
    · intro hk
      simp [get_wheel, BuiltDist.name, hrb, hurl, hc, hk]
  · intro e hc
    constructor
    · intro hk
      simp [build_wheel, hbuild, hc, hk]
    · intro hk
      simp [build_wheel, hbuild, hc, hk]

/-- C7 witness: `NotFound` proceeds, `PermissionDenied` is `CacheRead`. -/
theorem c7_not_found_is_absence_witness :
    get_wheel env0 (.path pathWheel0) =
      { result := .ok (.disk
          { dist := .built (.path pathWheel0), path := pathWheel0.path,
            target := (path_wheel_cache_entry pathWheel0).into_path_buf,
            filename := fnA }),
        trace := [Effect.canonicalize (path_wheel_cache_entry pathWheel0).path] } ∧
    get_wheel envCacheDenied (.path pathWheel0) =
      { result := .error (.cacheRead { kind := .permissionDenied, msg := "p" }),
        trace := [Effect.canonicalize (path_wheel_cache_entry pathWheel0).path] } :=
  ⟨((c7_not_found_is_absence env0 pathWheel0 regPathWheel0 "/w/a.whl" sdist0 "t"
      { path := "bw.whl", target := "bw-dir", filename := fnA }
      (by decide) (by decide) (by decide) (by decide)).1
      { kind := .notFound, msg := "" } (by decide)).1 (by decide),
   ((c7_not_found_is_absence envCacheDenied pathWheel0 regPathWheel0 "/w/a.whl"
      sdist0 "t" { path := "bw.whl", target := "bw-dir", filename := fnA }
      (by decide) (by decide) (by decide) (by decide)).1
      { kind := .permissionDenied, msg := "p" } (by decide)).2 (by decide)⟩

/-- C8: the streaming and buffered strategies agree on every shared
derivation: the HTTP cache entry (the wheel entry's file renamed to the
filename stem plus ".http"), the cache-control selection (as a function of
connectivity and the freshness oracle), the GET request (with the identity
accept-encoding header), and the final persist destination (the wheel
entry's path). -/
theorem c8_strategy_agreement (env : Env) (url : Url) (filename : WheelFilename)
    (wheel_entry : CacheEntry) :
    stream_http_entry wheel_entry filename = download_http_entry wheel_entry filename ∧
    stream_http_entry wheel_entry filename =
      wheel_entry.with_file (filename.stem ++ ".http") ∧
    stream_cache_control env (stream_http_entry wheel_entry filename) filename =
      download_cache_control env (download_http_entry wheel_entry filename) filename ∧
    request url =
      { method := "GET", url := url, headers := [("accept-encoding", "identity")] } ∧
    stream_persist_target wheel_entry = download_persist_target wheel_entry ∧
    stream_persist_target wheel_entry = wheel_entry.path :=
  ⟨rfl, rfl, rfl, rfl, rfl, rfl⟩

theorem lockInv_init (ident : Nat → String) : LockInv ident LockSys.init := by
  refine ⟨?_, ?_, ?_, ?_, ?_⟩
  · intro t ht
    simp [LockSys.init, TaskPhase.inFlight] at ht
  · intro i t h
    simp [LockSys.init] at h
  · simp [LockSys.init]
  · intro i
    simp [LockSys.init]
  · intro t ht
    simp [LockSys.init] at ht

theorem lockInv_step (ident : Nat → String) {s s' : LockSys}
    (inv : LockInv ident s) (st : LockStep ident s s') : LockInv ident s' := by
  obtain ⟨h1, h2, h3, h4, h5⟩ := inv
  cases st with
  | acquire t hp ho =>
      refine ⟨?_, ?_, h3, h4, ?_⟩
      · intro u hu
        dsimp only at hu ⊢
        by_cases hut : u = t
        · subst hut
          simp [Function.update_same]
        · rw [Function.update_noteq hut] at hu
          by_cases hii : ident u = ident t
          · have hcontra := h1 u hu
            rw [hii, ho] at hcontra
            cases hcontra
          · rw [Function.update_noteq hii]
            exact h1 u hu
      · intro i u hou
        dsimp only at hou ⊢
        by_cases hit : i = ident t
        · subst hit
          rw [Function.update_same] at hou
          cases hou
          exact ⟨rfl, by simp [Function.update_same, TaskPhase.inFlight]⟩
        · rw [Function.update_noteq hit] at hou
          obtain ⟨hi, hf⟩ := h2 i u hou
          refine ⟨hi, ?_⟩
          by_cases hut : u = t
          · subst hut
            exact absurd hi.symm hit
          · rw [Function.update_noteq hut]
            exact hf
      · intro u hu
        dsimp only at hu ⊢
        by_cases hut : u = t
        · subst hut
          rw [Function.update_same] at hu
          rcases hu with h | h <;> cases h
        · rw [Function.update_noteq hut] at hu
          exact h5 u hu
  | work t hp =>
      refine ⟨?_, ?_, ?_, ?_, ?_⟩
      · intro u hu
        dsimp only at hu ⊢
        by_cases hut : u = t
        · subst hut
          exact h1 _ (by rw [hp]; trivial)
        · rw [Function.update_noteq hut] at hu
          exact h1 u hu
      · intro i u hou
        dsimp only at hou ⊢
        obtain ⟨hi, hf⟩ := h2 i u hou
        refine ⟨hi, ?_⟩
        by_cases hut : u = t
        · subst hut
          simp [Function.update_same, TaskPhase.inFlight]
        · rw [Function.update_noteq hut]
          exact hf
      · dsimp only
        by_cases hc : s.cache (ident t) = true
        · simp only [hc, if_true]
          exact h3
        · simp only [hc, Bool.false_eq_true, if_false]
          rw [List.nodup_append]
          refine ⟨h3, List.nodup_singleton _, ?_⟩
          intro a ha hb
          rw [List.mem_singleton] at hb
          subst hb
          exact hc ((h4 _).mpr ha)
      · intro i
        dsimp only
        by_cases hit : i = ident t
        · subst hit
          rw [Function.update_same]
          by_cases hc : s.cache (ident t) = true
          · simp [hc, (h4 (ident t)).mp hc]
          · simp [hc, List.mem_append, List.mem_singleton]
        · rw [Function.update_noteq hit]
          by_cases hc : s.cache (ident t) = true
          · simp only [hc, if_true]
            exact h4 i
          · simp only [hc, Bool.false_eq_true, if_false]
            rw [List.mem_append, List.mem_singleton]
            constructor
            · intro h
              exact Or.inl ((h4 i).mp h)
            · intro h
              rcases h with h | h
              · exact (h4 i).mpr h
              · exact absurd h hit
      · intro u hu
        dsimp only at hu ⊢
        by_cases hut : u = t
        · subst hut
          rw [Function.update_same]
        · rw [Function.update_noteq hut] at hu
          by_cases hii : ident u = ident t
          · rw [hii, Function.update_same]
          · rw [Function.update_noteq hii]
            exact h5 u hu
  | release t hp =>
      refine ⟨?_, ?_, h3, h4, ?_⟩
      · intro u hu
        dsimp only at hu ⊢
        by_cases hut : u = t
        · subst hut
          rw [Function.update_same] at hu
          simp [TaskPhase.inFlight] at hu
        · rw [Function.update_noteq hut] at hu
          by_cases hii : ident u = ident t
          · have h1u := h1 u hu
            have h1t := h1 t (by rw [hp]; trivial)
            rw [hii, h1t] at h1u
            cases h1u
            exact absurd rfl hut
          · rw [Function.update_noteq hii]
            exact h1 u hu
      · intro i u hou
        dsimp only at hou ⊢
        by_cases hit : i = ident t
        · subst hit
          rw [Function.update_same] at hou
          cases hou
        · rw [Function.update_noteq hit] at hou
          obtain ⟨hi, hf⟩ := h2 i u hou
          refine ⟨hi, ?_⟩
          by_cases hut : u = t
          · subst hut
            exact absurd hi.symm hit
          · rw [Function.update_noteq hut]
            exact hf
      · intro u hu
        dsimp only at hu ⊢
        by_cases hut : u = t
        · subst hut
          exact h5 _ (Or.inl hp)
        · rw [Function.update_noteq hut] at hu
          exact h5 u hu

theorem lockInv_reachable (ident : Nat → String) {s : LockSys}
    (h : LockReachable ident s) : LockInv ident s := by
  induction h with
  | init => exact lockInv_init ident
  | step _ st ih => exact lockInv_step ident ih st

/-- C9 (modelled from the spec, `locks.rs` not under `src/`): in every
reachable state of the lock registry, (a) at most one task per identity is
in flight — all build/fetch attempts for one identity are serialized; (b)
an in-flight task holds its identity's lock for the whole duration,
acquired before the collaborator call; (c) the build backend is invoked at
most once per identity, and exactly once per identity that has a completed
task; (d) a task whose identity's lock is free can always acquire it, so
callers for different identities proceed unimpeded. -/
theorem c9_per_identity_serialization (ident : Nat → String) (s : LockSys)
    (h : LockReachable ident s) :
    (∀ t u, (s.phase t).inFlight → (s.phase u).inFlight →
      ident t = ident u → t = u) ∧
    (∀ t, (s.phase t).inFlight → s.owner (ident t) = some t) ∧
    (∀ i, s.backendCalls.count i ≤ 1) ∧
    (∀ t, s.phase t = .done → s.backendCalls.count (ident t) = 1) ∧
    (∀ t, s.phase t = .start → s.owner (ident t) = Option.none →
      ∃ s', LockStep ident s s' ∧ (s'.phase t).inFlight) := by
  obtain ⟨h1, h2, h3, h4, h5⟩ := lockInv_reachable ident h
  refine ⟨?_, h1, ?_, ?_, ?_⟩
  · intro t u ht hu hi
    have at1 := h1 t ht
    have at2 := h1 u hu
    rw [hi, at2] at at1
    exact (Option.some.inj at1).symm
  · intro i
    exact List.nodup_iff_count_le_one.mp h3 i
  · intro t ht
    exact List.count_eq_one_of_mem h3 ((h4 (ident t)).mp (h5 t (Or.inr ht)))
  · intro t ht ho
    exact ⟨_, LockStep.acquire s t ht ho,
      by simp [Function.update_same, TaskPhase.inFlight]⟩

/-- C9 witness: the serialization properties at the concrete three-step run
acquire–work–release of task 0. -/
theorem c9_per_identity_serialization_witness :
    (∀ t u, (c9S3.phase t).inFlight → (c9S3.phase u).inFlight →
      c9Ident t = c9Ident u → t = u) ∧
    (∀ t, (c9S3.phase t).inFlight → c9S3.owner (c9Ident t) = some t) ∧
    (∀ i, c9S3.backendCalls.count i ≤ 1) ∧
    (∀ t, c9S3.phase t = .done → c9S3.backendCalls.count (c9Ident t) = 1) ∧
    (∀ t, c9S3.phase t = .start → c9S3.owner (c9Ident t) = Option.none →
      ∃ s', LockStep c9Ident c9S3 s' ∧ (s'.phase t).inFlight) :=
  c9_per_identity_serialization c9Ident c9S3
    (LockReachable.step
      (LockReachable.step
        (LockReachable.step LockReachable.init
          (LockStep.acquire LockSys.init 0 rfl rfl))
        (LockStep.work c9S1 0 rfl))
      (LockStep.release c9S2 0 rfl))

/-- C10: `get_wheel_metadata` has no `NoBinary` gate of its own: whenever
the direct metadata-only fetch succeeds it returns that metadata — even for
a policy-covered distribution — and if it ever fails with `Error::NoBinary`
then the direct fetch necessarily failed with the streaming-unsupported
signal and the distribution is covered by the policy, i.e. the rejection
came from the `get_wheel` fallback. -/
theorem c10_metadata_no_binary_deferred (env : Env) (dist : BuiltDist) :
    (∀ m, env.wheelMetadata dist = .ok m →
      get_wheel_metadata env dist =
        { result := .ok m, trace := [Effect.fetchMetadata dist] }) ∧
    ((get_wheel_metadata env dist).result = .error Error.noBinary →
      ∃ e, env.wheelMetadata dist = .error e ∧ e.streamingUnsupported = true ∧
        noBinaryGate env.noBinary dist.name = true) := by
  constructor
  · intro m hm
    simp [get_wheel_metadata, hm]
  · intro hres
    rcases hw : env.wheelMetadata dist with err | m
    swap
    · have hmeta : (get_wheel_metadata env dist).result = .ok m := by
        simp [get_wheel_metadata, hw]
      rw [hmeta] at hres
      cases hres
    · by_cases hs : err.streamingUnsupported = true
      · refine ⟨err, rfl, hs, ?_⟩
        by_contra hg
        have hgf : noBinaryGate env.noBinary dist.name = false := by
          cases hgb : noBinaryGate env.noBinary dist.name
          · rfl
          · exact absurd hgb hg
        rcases hgw : (get_wheel env dist).result with e2 | w
        · have hmeta : (get_wheel_metadata env dist).result = .error e2 := by
            simp [get_wheel_metadata, hw, hs, hgw]
          rw [hmeta] at hres
          cases hres
          exact (get_wheel_notPolicy env dist hgf Error.noBinary hgw).1 rfl
        · rcases hlm : env.wheelLocalMetadata w with e3 | m2
          · have hmeta : (get_wheel_metadata env dist).result = .error e3.toError := by
              simp [get_wheel_metadata, hw, hs, hgw, hlm]
            rw [hmeta] at hres
            cases e3 <;> simp [WheelReadError.toError] at hres
          · have hmeta : (get_wheel_metadata env dist).result = .ok m2 := by
              simp [get_wheel_metadata, hw, hs, hgw, hlm]
            rw [hmeta] at hres
            cases hres
      · have hmeta : (get_wheel_metadata env dist).result = .error (.client err) := by
          simp [get_wheel_metadata, hw, hs]
        rw [hmeta] at hres
        cases hres

/-- C10 witness: with `NoBinary::All`, a successful direct fetch still
returns metadata, and the one observed `NoBinary` failure comes from the
streaming-unsupported fallback. -/
theorem c10_metadata_no_binary_deferred_witness :
    get_wheel_metadata envNoBinary (.registry regWheel0) =
      { result := .ok { raw := "md" },
        trace := [Effect.fetchMetadata (.registry regWheel0)] } ∧
    (∃ e, envC10.wheelMetadata (.registry regWheel0) = .error e ∧
      e.streamingUnsupported = true ∧
      noBinaryGate envC10.noBinary (BuiltDist.registry regWheel0).name = true) :=
  ⟨(c10_metadata_no_binary_deferred envNoBinary (.registry regWheel0)).1
      { raw := "md" } (by decide),
   (c10_metadata_no_binary_deferred envC10 (.registry regWheel0)).2 (by decide)⟩

end Uv
